import Mathlib

/-!
# Verification of the remote-educator-hub client and schema

Shallow embedding of the teacher class/assignment manager:
the sign-up form handler (`src/components/auth/AuthForm.tsx`),
the two list-form controllers (`TurmasManager.tsx`, `AtividadesManager.tsx`),
the dashboard aggregator (`Dashboard.tsx`), and the SQL schema
(tables `profiles`, `turmas`, `atividades` with their constraints and
cascades).  Handlers are modelled as pure functions from the component
state (and the outcome of the single remote request they await) to the
new state together with the store requests they issue and the toasts
they emit.
-/

set_option linter.unusedVariables false

/-- A user-facing toast notification, as raised through `toast({...})`;
`destructive` records `variant: "destructive"`. -/
structure Toast where
  title : String
  description : String
  destructive : Bool
deriving DecidableEq

namespace AuthForm

/-- The sign-up/sign-in form state of `AuthForm.tsx` (lines 14-19). -/
structure FormData where
  email : String
  password : String
  fullName : String
  confirmPassword : String
deriving DecidableEq

/-- A request issued to the auth client (`useAuth`'s `signIn`/`signUp`). -/
inductive AuthRequest where
  | signIn (email password : String)
  | signUp (email password fullName : String)
deriving DecidableEq

/-- Outcome of one submit-handler run: the auth requests it issued, the
toasts it emitted, and the form state it left behind. -/
structure SubmitResult where
  requests : List AuthRequest
  toasts : List Toast
  formAfter : FormData
deriving DecidableEq

/-- The toast raised when the two passwords differ (lines 43-47). -/
def mismatchToast : Toast :=
  { title := "Erro", description := "As senhas não coincidem", destructive := true }

/-- `handleSignUp` (AuthForm.tsx lines 38-68): if `password !==
confirmPassword` it toasts and returns before calling `signUp`; otherwise
it calls `signUp` and toasts according to the returned error.
`signUpError` is the `error` field of the awaited `signUp` result. -/
def handleSignUp (fd : FormData) (signUpError : Option String) : SubmitResult :=
  if fd.password ≠ fd.confirmPassword then
    { requests := [], toasts := [mismatchToast], formAfter := fd }
  else
    { requests := [AuthRequest.signUp fd.email fd.password fd.fullName],
      toasts := [match signUpError with
        | some msg => { title := "Erro no cadastro", description := msg, destructive := true }
        | none => { title := "Cadastro realizado!",
                    description := "Verifique seu email para confirmar a conta.",
                    destructive := false }],
      formAfter := fd }

/-- A concrete form state with mismatched passwords. -/
def mismatchedForm : FormData :=
  { email := "ana@escola.br", password := "secreta1", fullName := "Ana",
    confirmPassword := "secreta2" }

end AuthForm

/-- The JavaScript idiom `s || null` used by both submit handlers to turn
an empty-string form field into a SQL NULL. -/
def orNull (s : String) : Option String :=
  if s == "" then none else some s

namespace Schema

/-- A row of `public.turmas` (part_001 lines 31-40): `name` is NOT NULL,
`description`, `grade_level` and `subject` are nullable TEXT; timestamps
are modelled as naturals. -/
structure TurmaRow where
  id : String
  teacher_id : String
  name : String
  description : Option String
  grade_level : Option String
  subject : Option String
  created_at : Nat
  updated_at : Nat
deriving DecidableEq

/-- A row of `public.atividades` (part_001 lines 67-77): `turma_id`,
`teacher_id` and `title` are NOT NULL; `description`, `due_date` and
`status` are nullable (`status TEXT DEFAULT 'pending' CHECK (...)` carries
no NOT NULL). -/
structure AtividadeRow where
  id : String
  turma_id : String
  teacher_id : String
  title : String
  description : Option String
  due_date : Option String
  status : Option String
  created_at : Nat
  updated_at : Nat
deriving DecidableEq

/-- The CHECK constraint `status IN ('pending','in_progress','completed')`
(part_001 line 74) under SQL three-valued logic: when `status` is NULL the
IN-expression is NULL, which does not violate a CHECK constraint, so a
NULL status is admitted (the column has no NOT NULL). -/
def statusCheckOk (s : Option String) : Bool :=
  match s with
  | none => true
  | some v => v == "pending" || v == "in_progress" || v == "completed"

/-- Row admissibility for `public.atividades`: the only CHECK constraint
on the table is the status check. -/
def atividadeRowAdmissible (r : AtividadeRow) : Bool :=
  statusCheckOk r.status

/-- The DEFAULT for `atividades.status`, applied when an INSERT omits the
column (part_001 line 74). -/
def statusColumnDefault : String := "pending"

/-- The status actually stored by an INSERT: `none` means the column was
omitted (DEFAULT 'pending' applies); `some v` means the value `v`
(possibly NULL) was supplied explicitly and is stored as given. -/
def appliedStatus (provided : Option (Option String)) : Option String :=
  match provided with
  | none => some statusColumnDefault
  | some v => v

/-- The two collections the managers touch.  `profiles` is not modelled:
no claim depends on it. -/
structure Store where
  turmas : List TurmaRow
  atividades : List AtividadeRow
deriving DecidableEq

/-- The insert/update payload built by `TurmasManager.handleSubmit`
(TurmasManager.tsx lines 71-77). -/
structure TurmaInsertData where
  name : String
  description : Option String
  grade_level : Option String
  subject : Option String
  teacher_id : String
deriving DecidableEq

/-- The insert/update payload built by `AtividadesManager.handleSubmit`
(part_000 lines 108-115). -/
structure AtividadeInsertData where
  title : String
  description : Option String
  due_date : Option String
  status : Option String
  turma_id : String
  teacher_id : String
deriving DecidableEq

/-- INSERT INTO turmas: the store assigns a fresh `id`
(`gen_random_uuid()`) and stamps `created_at`/`updated_at` with `now()`. -/
def insertTurma (s : Store) (d : TurmaInsertData) (fresh : String) (now : Nat) : Store :=
  { s with turmas := s.turmas ++
      [{ id := fresh, teacher_id := d.teacher_id, name := d.name,
         description := d.description, grade_level := d.grade_level,
         subject := d.subject, created_at := now, updated_at := now }] }

/-- INSERT INTO atividades from the client payload. -/
def insertAtividade (s : Store) (d : AtividadeInsertData) (fresh : String) (now : Nat) : Store :=
  { s with atividades := s.atividades ++
      [{ id := fresh, turma_id := d.turma_id, teacher_id := d.teacher_id,
         title := d.title, description := d.description,
         due_date := d.due_date, status := d.status,
         created_at := now, updated_at := now }] }

/-- The foreign-key constraint `turma_id UUID NOT NULL REFERENCES
public.turmas(id)` (part_001 line 69): the referenced turma must exist. -/
def turmaIdFKOk (s : Store) (r : AtividadeRow) : Bool :=
  s.turmas.any (fun t => t.id == r.turma_id)

/-- A raw SQL INSERT of a full atividade row, gated by the table's
constraints over the modelled collections: the `turma_id` foreign key
into `turmas` and the status CHECK.  (`teacher_id REFERENCES
auth.users(id)` targets a table outside the modelled store.)  The row is
stored iff both constraints hold. -/
def insertAtividadeRowSQL (s : Store) (r : AtividadeRow) : Option Store :=
  if turmaIdFKOk s r && atividadeRowAdmissible r then
    some { s with atividades := s.atividades ++ [r] }
  else
    none

/-- DELETE FROM turmas WHERE id = turmaId.  `atividades.turma_id
REFERENCES turmas(id) ON DELETE CASCADE` (part_001 line 69) removes every
atividade owned by the deleted turma in the same statement. -/
def deleteTurma (s : Store) (turmaId : String) : Store :=
  { turmas := s.turmas.filter (fun t => t.id != turmaId),
    atividades := s.atividades.filter (fun a => a.turma_id != turmaId) }

/-- `loadTurmas`'s query (TurmasManager.tsx 48-52): select turmas with
`eq('teacher_id', user.id)` (also the shape RLS enforces), ordered by
`created_at` descending. -/
def selectTurmas (s : Store) (uid : String) : List TurmaRow :=
  List.insertionSort (fun a b => b.created_at ≤ a.created_at)
    (s.turmas.filter (fun t => t.teacher_id == uid))

/-- `loadData`'s atividades query (part_000 81-88): select atividades with
`eq('teacher_id', user.id)` ordered by `created_at` descending (the joined
`turmas (name)` display field is resolved by `joinTurmaName`). -/
def selectAtividades (s : Store) (uid : String) : List AtividadeRow :=
  List.insertionSort (fun a b => b.created_at ≤ a.created_at)
    (s.atividades.filter (fun a => a.teacher_id == uid))

/-- The embedded `turmas (name)` join: the name of the turma the
atividade references, if visible. -/
def joinTurmaName (s : Store) (a : AtividadeRow) : Option String :=
  (s.turmas.find? (fun t => t.id == a.turma_id)).map (fun t => t.name)

/-- Dashboard `loadStats` turmas count (part_000 498-501):
`count: 'exact'` with `eq('teacher_id', user.id)`. -/
def countTurmas (s : Store) (uid : String) : Nat :=
  (s.turmas.filter (fun t => t.teacher_id == uid)).length

/-- Dashboard `loadStats` atividades count (part_000 504-507). -/
def countAtividades (s : Store) (uid : String) : Nat :=
  (s.atividades.filter (fun a => a.teacher_id == uid)).length

/-- Dashboard `loadStats` pending count (part_000 510-514):
`eq('teacher_id', user.id).eq('status', 'pending')`. -/
def countPendentes (s : Store) (uid : String) : Nat :=
  (s.atividades.filter
    (fun a => a.teacher_id == uid && a.status == some "pending")).length

/-- A concrete atividade row whose status is an explicit NULL. -/
def nullStatusRow : AtividadeRow :=
  { id := "a1", turma_id := "t1", teacher_id := "u1", title := "Lista 1",
    description := none, due_date := none, status := none,
    created_at := 0, updated_at := 0 }

/-- A concrete stored turma serving as the foreign-key parent of
`nullStatusRow` (`turma_id = "t1"`). -/
def parentTurma : TurmaRow :=
  { id := "t1", teacher_id := "u1", name := "5º Ano A",
    description := none, grade_level := none, subject := none,
    created_at := 0, updated_at := 0 }

end Schema

namespace TurmasManager

/-- The client-side `Turma` interface (TurmasManager.tsx 13-21). -/
structure Turma where
  id : String
  name : String
  description : Option String
  grade_level : Option String
  subject : Option String
  created_at : Nat
  updated_at : Nat
deriving DecidableEq

/-- The controller's form state (lines 33-38). -/
structure FormData where
  name : String
  description : String
  grade_level : String
  subject : String
deriving DecidableEq

/-- The blank form used at initialisation and by `resetForm` (149-158). -/
def blankForm : FormData :=
  { name := "", description := "", grade_level := "", subject := "" }

/-- The controller state: row list, loading flag, dialog flag, the
currently-editing reference, and the form. -/
structure State where
  turmas : List Turma
  loading : Bool
  isDialogOpen : Bool
  editingTurma : Option Turma
  formData : FormData
deriving DecidableEq

/-- The destructive toast of a failed turmas load (56-60). -/
def loadErrorToast : Toast :=
  { title := "Erro", description := "Não foi possível carregar as turmas.",
    destructive := true }

/-- `loadTurmas` (44-65) as a function of the awaited supabase response:
on error it logs, toasts and leaves `turmas` untouched; on success it
replaces `turmas` with the fetched rows.  `loading` ends false either
way. -/
def loadTurmas (st : State) (result : Except String (List Turma)) :
    State × List Toast :=
  match result with
  | Except.error _ => ({ st with loading := false }, [loadErrorToast])
  | Except.ok rows => ({ st with turmas := rows, loading := false }, [])

/-- The `turmaData` payload built in `handleSubmit` (71-77): empty-string
optional fields become NULL via `|| null`; `teacher_id` is stamped with
the caller's identity. -/
def turmaData (fd : FormData) (uid : String) : Schema.TurmaInsertData :=
  { name := fd.name, description := orNull fd.description,
    grade_level := orNull fd.grade_level, subject := orNull fd.subject,
    teacher_id := uid }

/-- `resetForm` (149-158): blank the form, clear the editing reference,
close the dialog. -/
def resetForm (st : State) : State :=
  { st with formData := blankForm, editingTurma := none,
            isDialogOpen := false }

/-- The form contents `startEdit` installs (162-167): NULL optional
fields become empty-string sentinels via `|| ''`. -/
def startEditForm (t : Turma) : FormData :=
  { name := t.name, description := t.description.getD "",
    grade_level := t.grade_level.getD "", subject := t.subject.getD "" }

/-- `startEdit` (160-169): remember the row, pre-populate the form, open
the dialog. -/
def startEdit (st : State) (t : Turma) : State :=
  { st with editingTurma := some t, formData := startEditForm t,
            isDialogOpen := true }

/-- A store request issued by this controller. -/
inductive Request where
  | insertTurma (d : Schema.TurmaInsertData)
  | updateTurma (id : String) (d : Schema.TurmaInsertData)
  | deleteTurma (id : String)
deriving DecidableEq

/-- Outcome of one `handleSubmit` run: requests issued, toasts emitted,
resulting controller state, and whether `onStatsChange` was signalled. -/
structure SubmitOutcome where
  requests : List Request
  toasts : List Toast
  state : State
  statsRefreshed : Bool
deriving DecidableEq

/-- `handleSubmit` (67-121) as a function of the awaited store outcome
(`storeError`): in Editing it issues `update` keyed by the remembered id,
in Creating it issues `insert`; on failure the state (form included) is
unchanged; on success it re-loads, signals the aggregator and resets the
form.  The re-issued `loadTurmas` is modelled separately. -/
def handleSubmit (st : State) (uid : String) (storeError : Bool) :
    SubmitOutcome :=
  let d := turmaData st.formData uid
  match st.editingTurma with
  | some t =>
    if storeError then
      { requests := [Request.updateTurma t.id d],
        toasts := [{ title := "Erro",
                     description := "Não foi possível atualizar a turma.",
                     destructive := true }],
        state := st, statsRefreshed := false }
    else
      { requests := [Request.updateTurma t.id d],
        toasts := [{ title := "Sucesso",
                     description := "Turma atualizada com sucesso!",
                     destructive := false }],
        state := resetForm st, statsRefreshed := true }
  | none =>
    if storeError then
      { requests := [Request.insertTurma d],
        toasts := [{ title := "Erro",
                     description := "Não foi possível criar a turma.",
                     destructive := true }],
        state := st, statsRefreshed := false }
    else
      { requests := [Request.insertTurma d],
        toasts := [{ title := "Sucesso",
                     description := "Turma criada com sucesso!",
                     destructive := false }],
        state := resetForm st, statsRefreshed := true }

/-- User/async events that change the controller state. -/
inductive Action where
  /-- The header `Nova Turma` DialogTrigger button (196-203): its
  `onClick` runs `resetForm()`, then the trigger opens the dialog. -/
  | clickNovaTurma
  /-- The empty-state `Criar Primeira Turma` button (288-294): its
  `onClick` is only `setIsDialogOpen(true)`. -/
  | clickCriarPrimeiraTurma
  /-- The dialog's `onOpenChange={setIsDialogOpen}` (195), e.g. an ESC or
  overlay dismissal sets it to false without touching the form. -/
  | setDialogOpen (b : Bool)
  /-- The per-row edit button (315-320): `startEdit(turma)`. -/
  | clickEdit (t : Turma)
  /-- A confirmed, successful `handleDelete` (123-147) whose follow-up
  `loadTurmas` returned `reloaded`. -/
  | deleteSucceeded (id : String) (reloaded : List Turma)
deriving DecidableEq

/-- One step of the controller's UI state machine. -/
def step (st : State) : Action → State
  | Action.clickNovaTurma => { resetForm st with isDialogOpen := true }
  | Action.clickCriarPrimeiraTurma => { st with isDialogOpen := true }
  | Action.setDialogOpen b => { st with isDialogOpen := b }
  | Action.clickEdit t => startEdit st t
  | Action.deleteSucceeded _ reloaded => { st with turmas := reloaded }

/-- A concrete stored turma, the only one its teacher owns. -/
def sampleTurma : Turma :=
  { id := "t1", name := "5º Ano A", description := some "Turma da manhã",
    grade_level := none, subject := some "Matemática",
    created_at := 0, updated_at := 0 }

/-- The idle state listing only `sampleTurma`. -/
def sampleIdleState : State :=
  { turmas := [sampleTurma], loading := false, isDialogOpen := false,
    editingTurma := none, formData := blankForm }

/-- Edit `sampleTurma`, dismiss the dialog with ESC, then delete the row:
the reachable state right before clicking `Criar Primeira Turma`. -/
def staleEditingState : State :=
  step (step (step sampleIdleState (Action.clickEdit sampleTurma))
      (Action.setDialogOpen false))
    (Action.deleteSucceeded "t1" [])

end TurmasManager

namespace AtividadesManager

/-- The `{id, name}` turma projection loaded for the select (part_000
29-32 and 69-72). -/
structure TurmaRef where
  id : String
  name : String
deriving DecidableEq

/-- The client-side `Atividade` interface (part_000 15-27).  `status` is
declared there as the closed union; at runtime it carries whatever the
store returns, so it is modelled as the stored nullable text.
`turmaName` is the joined `turmas { name }` display field. -/
structure Atividade where
  id : String
  title : String
  description : Option String
  due_date : Option String
  status : Option String
  turma_id : String
  created_at : Nat
  updated_at : Nat
  turmaName : String
deriving DecidableEq

/-- The controller's form state (part_000 51-57). -/
structure FormData where
  title : String
  description : String
  due_date : String
  status : Option String
  turma_id : String
deriving DecidableEq

/-- The blank form of initialisation and `resetForm` (187-197): status
defaults to `'pending'`, no turma selected. -/
def blankForm : FormData :=
  { title := "", description := "", due_date := "",
    status := some "pending", turma_id := "" }

/-- The controller state. -/
structure State where
  atividades : List Atividade
  turmas : List TurmaRef
  loading : Bool
  isDialogOpen : Bool
  editingAtividade : Option Atividade
  formData : FormData
deriving DecidableEq

/-- The destructive toast of a failed atividades load (92-96). -/
def loadErrorToast : Toast :=
  { title := "Erro",
    description := "Não foi possível carregar as atividades.",
    destructive := true }

/-- `loadData` (63-102) as a function of the two awaited responses.  A
turmas error is logged to the console only (74-75); an atividades error
toasts and leaves the previous `atividades` list untouched (90-96); each
successful fetch replaces its list. -/
def loadData (st : State) (turmasRes : Except String (List TurmaRef))
    (atividadesRes : Except String (List Atividade)) :
    State × List Toast :=
  let st1 :=
    match turmasRes with
    | Except.error _ => st
    | Except.ok rows => { st with turmas := rows }
  match atividadesRes with
  | Except.error _ => ({ st1 with loading := false }, [loadErrorToast])
  | Except.ok rows =>
      ({ st1 with atividades := rows, loading := false }, [])

/-- The `atividadeData` payload built in `handleSubmit` (108-115):
`description` and `due_date` get `|| null`; `status` and `turma_id` are
passed through verbatim; `teacher_id` is stamped with the caller. -/
def atividadeData (fd : FormData) (uid : String) : Schema.AtividadeInsertData :=
  { title := fd.title, description := orNull fd.description,
    due_date := orNull fd.due_date, status := fd.status,
    turma_id := fd.turma_id, teacher_id := uid }

/-- `resetForm` (187-197). -/
def resetForm (st : State) : State :=
  { st with formData := blankForm, editingAtividade := none,
            isDialogOpen := false }

/-- The form contents `startEdit` installs (199-209): `|| ''` sentinels
for `description` and `due_date`; `status` and `turma_id` copied
directly. -/
def startEditForm (a : Atividade) : FormData :=
  { title := a.title, description := a.description.getD "",
    due_date := a.due_date.getD "", status := a.status,
    turma_id := a.turma_id }

/-- `startEdit` (199-209). -/
def startEdit (st : State) (a : Atividade) : State :=
  { st with editingAtividade := some a, formData := startEditForm a,
            isDialogOpen := true }

/-- A store request issued by this controller. -/
inductive Request where
  | insertAtividade (d : Schema.AtividadeInsertData)
  | updateAtividade (id : String) (d : Schema.AtividadeInsertData)
  | deleteAtividade (id : String)
deriving DecidableEq

/-- Outcome of one `handleSubmit` run. -/
structure SubmitOutcome where
  requests : List Request
  toasts : List Toast
  state : State
  statsRefreshed : Bool
deriving DecidableEq

/-- `handleSubmit` (104-159): builds `atividadeData` and issues `update`
(Editing) or `insert` (Creating) — there is no client-side check of
`turma_id` or any other field in the handler; failure leaves the state
unchanged, success re-loads, signals the aggregator and resets. -/
def handleSubmit (st : State) (uid : String) (storeError : Bool) :
    SubmitOutcome :=
  let d := atividadeData st.formData uid
  match st.editingAtividade with
  | some a =>
    if storeError then
      { requests := [Request.updateAtividade a.id d],
        toasts := [{ title := "Erro",
                     description := "Não foi possível atualizar a atividade.",
                     destructive := true }],
        state := st, statsRefreshed := false }
    else
      { requests := [Request.updateAtividade a.id d],
        toasts := [{ title := "Sucesso",
                     description := "Atividade atualizada com sucesso!",
                     destructive := false }],
        state := resetForm st, statsRefreshed := true }
  | none =>
    if storeError then
      { requests := [Request.insertAtividade d],
        toasts := [{ title := "Erro",
                     description := "Não foi possível criar a atividade.",
                     destructive := true }],
        state := st, statsRefreshed := false }
    else
      { requests := [Request.insertAtividade d],
        toasts := [{ title := "Sucesso",
                     description := "Atividade criada com sucesso!",
                     destructive := false }],
        state := resetForm st, statsRefreshed := true }

/-- Native constraint validation of the dialog form (part_000 259-319):
only the title `Input` carries `required` (268); the Turma `Select`
(273-284) is a non-native widget with no required constraint, as are
`due_date`, `status` and `description`.  The browser lets the form
submit (so `handleSubmit` runs) iff the title is non-empty. -/
def formSubmitAllowed (fd : FormData) : Bool :=
  fd.title != ""

/-- The `Nova Atividade` button's `disabled` prop (part_000 240):
`turmas.length === 0`. -/
def novaAtividadeDisabled (st : State) : Bool :=
  st.turmas.length == 0

/-- Which body the component renders (part_000 337-436). -/
inductive BodyView where
  /-- `turmas.length === 0` (337-348): the "Nenhuma turma encontrada"
  card, which contains no button at all. -/
  | noTurmasCard
  /-- otherwise `atividades.length === 0` (349-367): the card with the
  `Criar Primeira Atividade` button. -/
  | noAtividadesCard
  /-- otherwise the atividade grid (368-436). -/
  | grid
deriving DecidableEq

/-- The body branch selected by the render (337-368). -/
def bodyView (st : State) : BodyView :=
  if st.turmas.length == 0 then BodyView.noTurmasCard
  else if st.atividades.length == 0 then BodyView.noAtividadesCard
  else BodyView.grid

/-- Whether a body branch renders a create-dialog-opening button. -/
def bodyOffersCreate : BodyView → Bool
  | BodyView.noTurmasCard => false
  | BodyView.noAtividadesCard => true
  | BodyView.grid => false

/-- User/async events for the UI state machine. -/
inductive Action where
  /-- The header `Nova Atividade` DialogTrigger button (236-244):
  `onClick` runs `resetForm()`, the trigger opens the dialog. -/
  | clickNovaAtividade
  /-- The empty-state `Criar Primeira Atividade` button (359-365):
  `onClick` is only `setIsDialogOpen(true)`. -/
  | clickCriarPrimeiraAtividade
  /-- The dialog's `onOpenChange={setIsDialogOpen}` (235). -/
  | setDialogOpen (b : Bool)
  /-- The per-row edit button (388-393): `startEdit(atividade)`. -/
  | clickEdit (a : Atividade)
deriving DecidableEq

/-- One step of the controller's UI state machine. -/
def step (st : State) : Action → State
  | Action.clickNovaAtividade => { resetForm st with isDialogOpen := true }
  | Action.clickCriarPrimeiraAtividade => { st with isDialogOpen := true }
  | Action.setDialogOpen b => { st with isDialogOpen := b }
  | Action.clickEdit a => startEdit st a

/-- A Creating-state dialog with a title typed in but no turma selected:
the select starts at its placeholder, so `turma_id` is still `''`. -/
def noTurmaSelectedState : State :=
  { atividades := [], turmas := [{ id := "t1", name := "5º Ano A" }],
    loading := false, isDialogOpen := true, editingAtividade := none,
    formData := { title := "Lista 1", description := "", due_date := "",
                  status := some "pending", turma_id := "" } }

/-- A state in which the teacher owns zero turmas. -/
def zeroTurmasState : State :=
  { atividades := [], turmas := [], loading := false,
    isDialogOpen := false, editingAtividade := none,
    formData := blankForm }

end AtividadesManager

namespace Dashboard

/-- The dashboard's aggregate counts (part_000 455-459). -/
structure Stats where
  totalTurmas : Nat
  totalAtividades : Nat
  atividadesPendentes : Nat
deriving DecidableEq

/-- `loadStats` (part_000 493-526) as a function of the three awaited
count responses (`none` models the `count: null` of a failed query — the
supabase client returns errors in-band, so the `catch` arm is dead).
Each stat becomes `count || 0`; no toast is ever raised here. -/
def loadStats (turmasCount atividadesCount pendingCount : Option Nat) :
    Stats × List Toast :=
  ({ totalTurmas := turmasCount.getD 0,
     totalAtividades := atividadesCount.getD 0,
     atividadesPendentes := pendingCount.getD 0 }, [])

end Dashboard

/-! ## General lemmas -/

/-- `s || null` exactly inverts the `|| ''` sentinel on a field that is
NULL or a non-empty string. -/
theorem orNull_getD (o : Option String) (h : o ≠ some "") :
    orNull (o.getD "") = o := by
  cases o with
  | none => simp [orNull]
  | some s =>
    have hs : s ≠ "" := fun hs => h (by rw [hs])
    simp [orNull, hs]

/-- Counting over the sorted turmas select reduces to counting over the
underlying collection with the owner filter conjoined. -/
theorem countP_selectTurmas (s : Schema.Store) (uid : String)
    (p : Schema.TurmaRow → Bool) :
    (Schema.selectTurmas s uid).countP p
      = s.turmas.countP (fun t => p t && (t.teacher_id == uid)) := by
  unfold Schema.selectTurmas
  rw [(List.perm_insertionSort _ _).countP_eq, List.countP_filter]

/-- Counting over the sorted atividades select reduces to counting over
the underlying collection with the owner filter conjoined. -/
theorem countP_selectAtividades (s : Schema.Store) (uid : String)
    (p : Schema.AtividadeRow → Bool) :
    (Schema.selectAtividades s uid).countP p
      = s.atividades.countP (fun a => p a && (a.teacher_id == uid)) := by
  unfold Schema.selectAtividades
  rw [(List.perm_insertionSort _ _).countP_eq, List.countP_filter]

/-- Membership in the sorted atividades select. -/
theorem mem_selectAtividades (s : Schema.Store) (uid : String)
    (a : Schema.AtividadeRow) :
    a ∈ Schema.selectAtividades s uid
      ↔ a ∈ s.atividades ∧ a.teacher_id == uid := by
  unfold Schema.selectAtividades
  rw [(List.perm_insertionSort _ _).mem_iff, List.mem_filter]

/-- The status CHECK accepts exactly NULL and the three enum values. -/
theorem atividadeRowAdmissible_iff (r : Schema.AtividadeRow) :
    Schema.atividadeRowAdmissible r = true
      ↔ (r.status = none ∨ r.status = some "pending" ∨
         r.status = some "in_progress" ∨ r.status = some "completed") := by
  cases h : r.status with
  | none => simp [Schema.atividadeRowAdmissible, Schema.statusCheckOk, h]
  | some v =>
    simp [Schema.atividadeRowAdmissible, Schema.statusCheckOk, h, or_assoc]

/-- A raw atividade INSERT succeeds exactly when the foreign key and the
status CHECK both hold. -/
theorem insertAtividadeRowSQL_isSome (s : Schema.Store)
    (r : Schema.AtividadeRow) :
    (Schema.insertAtividadeRowSQL s r).isSome
      = (Schema.turmaIdFKOk s r && Schema.atividadeRowAdmissible r) := by
  unfold Schema.insertAtividadeRowSQL
  cases h : (Schema.turmaIdFKOk s r && Schema.atividadeRowAdmissible r) <;>
    simp [h]

/-! ## Claims -/

/-- C1: for every form state in which `password` differs from
`confirmPassword`, `handleSignUp` issues no auth request, emits the
mismatch toast, and leaves the form contents unchanged. -/
theorem C1_signup_mismatch_blocks_request (fd : AuthForm.FormData)
    (err : Option String) (h : fd.password ≠ fd.confirmPassword) :
    (AuthForm.handleSignUp fd err).requests = [] ∧
    (AuthForm.handleSignUp fd err).toasts = [AuthForm.mismatchToast] ∧
    (AuthForm.handleSignUp fd err).formAfter = fd := by
  simp [AuthForm.handleSignUp, h]

/-- Witness for C1 at a concrete mismatched form. -/
theorem C1_signup_mismatch_blocks_request_witness :
    (AuthForm.handleSignUp AuthForm.mismatchedForm none).requests = [] ∧
    (AuthForm.handleSignUp AuthForm.mismatchedForm none).toasts
      = [AuthForm.mismatchToast] ∧
    (AuthForm.handleSignUp AuthForm.mismatchedForm none).formAfter
      = AuthForm.mismatchedForm :=
  C1_signup_mismatch_blocks_request AuthForm.mismatchedForm none (by decide)

/-- C2 counterexample: a Creating-state submission with a non-empty
title and no turma selected passes the form's native validation and
still issues an insert request whose `turma_id` is the empty string —
`handleSubmit` performs no client-side check of the Class selection. -/
theorem C2_counterexample_insert_issued_without_turma :
    AtividadesManager.formSubmitAllowed
        AtividadesManager.noTurmaSelectedState.formData = true ∧
    AtividadesManager.noTurmaSelectedState.formData.turma_id = "" ∧
    (AtividadesManager.handleSubmit
        AtividadesManager.noTurmaSelectedState "u1" true).requests
      = [AtividadesManager.Request.insertAtividade
          (AtividadesManager.atividadeData
            AtividadesManager.noTurmaSelectedState.formData "u1")] ∧
    (AtividadesManager.atividadeData
        AtividadesManager.noTurmaSelectedState.formData "u1").turma_id
      = "" := by
  decide

/-- C2 (amended): in Creating state `handleSubmit` always issues exactly
one insert whose payload passes `turma_id` through verbatim — empty when
no Class was selected — and the only client-side guard is the title
input's `required` markup, checked before the handler runs. -/
theorem C2_amended_no_client_turma_validation
    (st : AtividadesManager.State) (uid : String) (storeError : Bool)
    (h : st.editingAtividade = none) :
    (AtividadesManager.handleSubmit st uid storeError).requests
      = [AtividadesManager.Request.insertAtividade
          (AtividadesManager.atividadeData st.formData uid)] ∧
    (AtividadesManager.atividadeData st.formData uid).turma_id
      = st.formData.turma_id ∧
    AtividadesManager.formSubmitAllowed st.formData
      = (st.formData.title != "") := by
  cases storeError <;>
    simp [AtividadesManager.handleSubmit, h,
          AtividadesManager.atividadeData,
          AtividadesManager.formSubmitAllowed]

/-- Witness for the amended C2 at the concrete no-turma-selected state. -/
theorem C2_amended_no_client_turma_validation_witness :
    (AtividadesManager.handleSubmit
        AtividadesManager.noTurmaSelectedState "u1" true).requests
      = [AtividadesManager.Request.insertAtividade
          (AtividadesManager.atividadeData
            AtividadesManager.noTurmaSelectedState.formData "u1")] ∧
    (AtividadesManager.atividadeData
        AtividadesManager.noTurmaSelectedState.formData "u1").turma_id
      = AtividadesManager.noTurmaSelectedState.formData.turma_id ∧
    AtividadesManager.formSubmitAllowed
        AtividadesManager.noTurmaSelectedState.formData
      = (AtividadesManager.noTurmaSelectedState.formData.title != "") :=
  C2_amended_no_client_turma_validation
    AtividadesManager.noTurmaSelectedState "u1" true rfl

/-- C3: with zero turmas the `Nova Atividade` button is disabled and the
rendered body is the no-turmas card, which offers no create action. -/
theorem C3_zero_turmas_create_unavailable
    (st : AtividadesManager.State) (h : st.turmas = []) :
    AtividadesManager.novaAtividadeDisabled st = true ∧
    AtividadesManager.bodyView st
      = AtividadesManager.BodyView.noTurmasCard ∧
    AtividadesManager.bodyOffersCreate (AtividadesManager.bodyView st)
      = false := by
  simp [AtividadesManager.novaAtividadeDisabled,
        AtividadesManager.bodyView, AtividadesManager.bodyOffersCreate, h]

/-- Witness for C3 at a concrete zero-turmas state. -/
theorem C3_zero_turmas_create_unavailable_witness :
    AtividadesManager.novaAtividadeDisabled
        AtividadesManager.zeroTurmasState = true ∧
    AtividadesManager.bodyView AtividadesManager.zeroTurmasState
      = AtividadesManager.BodyView.noTurmasCard ∧
    AtividadesManager.bodyOffersCreate
        (AtividadesManager.bodyView AtividadesManager.zeroTurmasState)
      = false :=
  C3_zero_turmas_create_unavailable AtividadesManager.zeroTurmasState rfl

/-- C4: for both controllers a failed load emits the destructive load
toast and leaves the previous row list untouched, and a successful load
replaces the list with the fetched rows. -/
theorem C4_load_failure_stale_but_visible
    (st : TurmasManager.State) (stA : AtividadesManager.State)
    (e eA : String) (tRes : Except String (List AtividadesManager.TurmaRef))
    (rows : List TurmasManager.Turma)
    (rowsA : List AtividadesManager.Atividade) :
    (TurmasManager.loadTurmas st (Except.error e)).1.turmas = st.turmas ∧
    (TurmasManager.loadTurmas st (Except.error e)).2
      = [TurmasManager.loadErrorToast] ∧
    TurmasManager.loadErrorToast.destructive = true ∧
    (TurmasManager.loadTurmas st (Except.ok rows)).1.turmas = rows ∧
    (AtividadesManager.loadData stA tRes (Except.error eA)).1.atividades
      = stA.atividades ∧
    (AtividadesManager.loadData stA tRes (Except.error eA)).2
      = [AtividadesManager.loadErrorToast] ∧
    AtividadesManager.loadErrorToast.destructive = true ∧
    (AtividadesManager.loadData stA tRes (Except.ok rowsA)).1.atividades
      = rowsA := by
  cases tRes <;>
    simp [TurmasManager.loadTurmas, AtividadesManager.loadData,
          TurmasManager.loadErrorToast, AtividadesManager.loadErrorToast]

/-- C5: after a Creating-state submit whose payload the controller built
(`turmaData` / `atividadeData`, identity stamped as owner) is inserted
under a fresh id, the new row appears exactly once in the immediately
following owner-scoped load, and the dashboard's aggregate count for the
resource increases by exactly 1 — for both resource types. -/
theorem C5_create_appears_once_and_count_increments
    (s : Schema.Store) (uid freshT freshA : String) (now : Nat)
    (tfd : TurmasManager.FormData) (afd : AtividadesManager.FormData)
    (hT : freshT ∉ s.turmas.map Schema.TurmaRow.id)
    (hA : freshA ∉ s.atividades.map Schema.AtividadeRow.id) :
    ((Schema.selectTurmas
        (Schema.insertTurma s (TurmasManager.turmaData tfd uid) freshT now)
        uid).countP (fun t => t.id == freshT) = 1 ∧
      Schema.countTurmas
          (Schema.insertTurma s (TurmasManager.turmaData tfd uid) freshT now)
          uid
        = Schema.countTurmas s uid + 1) ∧
    ((Schema.selectAtividades
        (Schema.insertAtividade s
          (AtividadesManager.atividadeData afd uid) freshA now)
        uid).countP (fun a => a.id == freshA) = 1 ∧
      Schema.countAtividades
          (Schema.insertAtividade s
            (AtividadesManager.atividadeData afd uid) freshA now)
          uid
        = Schema.countAtividades s uid + 1) := by
  have hTzero :
      s.turmas.countP (fun t => (t.id == freshT) && (t.teacher_id == uid)) = 0 := by
    rw [List.countP_eq_zero]
    intro t ht hp
    have hid : t.id = freshT := by
      have := (Bool.and_eq_true _ _).mp hp
      simpa using this.1
    exact hT (List.mem_map.mpr ⟨t, ht, hid⟩)
  have hAzero :
      s.atividades.countP (fun a => (a.id == freshA) && (a.teacher_id == uid)) = 0 := by
    rw [List.countP_eq_zero]
    intro a ha hp
    have hid : a.id = freshA := by
      have := (Bool.and_eq_true _ _).mp hp
      simpa using this.1
    exact hA (List.mem_map.mpr ⟨a, ha, hid⟩)
  refine ⟨⟨?_, ?_⟩, ⟨?_, ?_⟩⟩
  · rw [countP_selectTurmas]
    simp [Schema.insertTurma, List.countP_append, hTzero,
          TurmasManager.turmaData, List.countP_cons]
  · simp [Schema.countTurmas, Schema.insertTurma, List.filter_append,
          TurmasManager.turmaData]
  · rw [countP_selectAtividades]
    simp [Schema.insertAtividade, List.countP_append, hAzero,
          AtividadesManager.atividadeData, List.countP_cons]
  · simp [Schema.countAtividades, Schema.insertAtividade,
          List.filter_append, AtividadesManager.atividadeData]

/-- Witness for C5: inserting into the empty store under fresh ids. -/
theorem C5_create_appears_once_and_count_increments_witness :
    ((Schema.selectTurmas
        (Schema.insertTurma ⟨[], []⟩
          (TurmasManager.turmaData TurmasManager.blankForm "u1") "t1" 0)
        "u1").countP (fun t => t.id == "t1") = 1 ∧
      Schema.countTurmas
          (Schema.insertTurma ⟨[], []⟩
            (TurmasManager.turmaData TurmasManager.blankForm "u1") "t1" 0)
          "u1"
        = Schema.countTurmas ⟨[], []⟩ "u1" + 1) ∧
    ((Schema.selectAtividades
        (Schema.insertAtividade ⟨[], []⟩
          (AtividadesManager.atividadeData AtividadesManager.blankForm "u1")
          "a1" 0)
        "u1").countP (fun a => a.id == "a1") = 1 ∧
      Schema.countAtividades
          (Schema.insertAtividade ⟨[], []⟩
            (AtividadesManager.atividadeData AtividadesManager.blankForm "u1")
            "a1" 0)
          "u1"
        = Schema.countAtividades ⟨[], []⟩ "u1" + 1) :=
  C5_create_appears_once_and_count_increments ⟨[], []⟩ "u1" "t1" "a1" 0
    TurmasManager.blankForm AtividadesManager.blankForm
    (by decide) (by decide)

/-- C6 counterexample: with its foreign-key parent turma present, a row
with an explicit NULL status satisfies every constraint of the INSERT —
the FK holds and the CHECK passes under SQL three-valued logic (the
column has no NOT NULL) — so it is stored, yet its status is none of the
three enum values. -/
theorem C6_counterexample_null_status_admitted :
    Schema.insertAtividadeRowSQL ⟨[Schema.parentTurma], []⟩
        Schema.nullStatusRow
      = some ⟨[Schema.parentTurma], [Schema.nullStatusRow]⟩ ∧
    Schema.nullStatusRow.status ≠ some "pending" ∧
    Schema.nullStatusRow.status ≠ some "in_progress" ∧
    Schema.nullStatusRow.status ≠ some "completed" := by
  decide

/-- C6 (amended): an atividade INSERT succeeds iff the referenced turma
exists and the row's status is NULL or one of the three enum values —
the CHECK rejects every other non-null value, but an explicit NULL is
additionally admitted; an INSERT that omits the column stores the
default `'pending'`, and the client's create form also defaults to
`'pending'`. -/
theorem C6_amended_status_closed_enum_or_null :
    (∀ (s : Schema.Store) (r : Schema.AtividadeRow),
      (Schema.insertAtividadeRowSQL s r).isSome = true
        ↔ (Schema.turmaIdFKOk s r = true ∧
           (r.status = none ∨ r.status = some "pending" ∨
            r.status = some "in_progress" ∨ r.status = some "completed"))) ∧
    Schema.appliedStatus none = some "pending" ∧
    AtividadesManager.blankForm.status = some "pending" := by
  refine ⟨?_, rfl, rfl⟩
  intro s r
  rw [insertAtividadeRowSQL_isSome, Bool.and_eq_true,
    atividadeRowAdmissible_iff]

/-- C7: after deleting a turma, no atividade owned by it survives: the
cascade removes them, so every subsequent owner-scoped atividades load
contains zero rows whose `turma_id` equals the deleted id. -/
theorem C7_class_delete_cascades (s : Schema.Store) (cid uid : String) :
    (Schema.selectAtividades (Schema.deleteTurma s cid) uid).countP
        (fun a => a.turma_id == cid) = 0 ∧
    (Schema.selectAtividades (Schema.deleteTurma s cid) uid).all
        (fun a => a.turma_id != cid) = true := by
  constructor
  · rw [countP_selectAtividades]
    rw [List.countP_eq_zero]
    intro a ha hp
    have hmem : a ∈ s.atividades ∧ (a.turma_id != cid) = true := by
      simpa [Schema.deleteTurma, List.mem_filter] using ha
    have heq : a.turma_id = cid := by
      have := (Bool.and_eq_true _ _).mp hp
      simpa using this.1
    simp [heq] at hmem
  · rw [List.all_eq_true]
    intro a ha
    have := (mem_selectAtividades _ _ _).mp ha
    have hmem : a ∈ s.atividades ∧ (a.turma_id != cid) = true := by
      simpa [Schema.deleteTurma, List.mem_filter] using this.1
    exact hmem.2

/-- C8: `loadStats` never raises a toast, and each count whose query
failed (null count) degrades to 0 in the freshly installed stats rather
than staying at a stale value. -/
theorem C8_count_failures_degrade_to_zero
    (tc ac pc : Option Nat) :
    (Dashboard.loadStats tc ac pc).2 = [] ∧
    (Dashboard.loadStats none ac pc).1.totalTurmas = 0 ∧
    (Dashboard.loadStats tc none pc).1.totalAtividades = 0 ∧
    (Dashboard.loadStats tc ac none).1.atividadesPendentes = 0 ∧
    (Dashboard.loadStats none none none).1
      = { totalTurmas := 0, totalAtividades := 0,
          atividadesPendentes := 0 } := by
  simp [Dashboard.loadStats]

/-- C9 counterexample: edit the only turma, dismiss the dialog with the
dialog's own dismiss gesture, delete the row; the empty-state `Criar
Primeira Turma` button then reopens the dialog with the stale editing
reference and the stale (non-blank) form — it does not clear them. -/
theorem C9_counterexample_stale_editing_on_reopen :
    TurmasManager.staleEditingState.turmas = [] ∧
    (TurmasManager.step TurmasManager.staleEditingState
        TurmasManager.Action.clickCriarPrimeiraTurma).isDialogOpen = true ∧
    (TurmasManager.step TurmasManager.staleEditingState
        TurmasManager.Action.clickCriarPrimeiraTurma).editingTurma
      = some TurmasManager.sampleTurma ∧
    (TurmasManager.step TurmasManager.staleEditingState
        TurmasManager.Action.clickCriarPrimeiraTurma).formData
      ≠ TurmasManager.blankForm := by
  decide

/-- C9 (amended): the header `Nova Turma` / `Nova Atividade` trigger
buttons do clear the form state and the editing reference before the
dialog opens; the empty-state `Criar Primeira` buttons only open the
dialog, leaving form state and editing reference exactly as they were. -/
theorem C9_amended_create_button_behaviour
    (st : TurmasManager.State) (stA : AtividadesManager.State) :
    ((TurmasManager.step st TurmasManager.Action.clickNovaTurma).formData
        = TurmasManager.blankForm ∧
      (TurmasManager.step st TurmasManager.Action.clickNovaTurma).editingTurma
        = none ∧
      (TurmasManager.step st TurmasManager.Action.clickNovaTurma).isDialogOpen
        = true) ∧
    ((AtividadesManager.step stA
          AtividadesManager.Action.clickNovaAtividade).formData
        = AtividadesManager.blankForm ∧
      (AtividadesManager.step stA
          AtividadesManager.Action.clickNovaAtividade).editingAtividade
        = none ∧
      (AtividadesManager.step stA
          AtividadesManager.Action.clickNovaAtividade).isDialogOpen
        = true) ∧
    ((TurmasManager.step st
          TurmasManager.Action.clickCriarPrimeiraTurma).formData
        = st.formData ∧
      (TurmasManager.step st
          TurmasManager.Action.clickCriarPrimeiraTurma).editingTurma
        = st.editingTurma ∧
      (TurmasManager.step st
          TurmasManager.Action.clickCriarPrimeiraTurma).isDialogOpen
        = true) ∧
    ((AtividadesManager.step stA
          AtividadesManager.Action.clickCriarPrimeiraAtividade).formData
        = stA.formData ∧
      (AtividadesManager.step stA
          AtividadesManager.Action.clickCriarPrimeiraAtividade).editingAtividade
        = stA.editingAtividade ∧
      (AtividadesManager.step stA
          AtividadesManager.Action.clickCriarPrimeiraAtividade).isDialogOpen
        = true) := by
  simp [TurmasManager.step, AtividadesManager.step,
        TurmasManager.resetForm, AtividadesManager.resetForm]

/-- C10: on a row whose optional text fields are each NULL or non-empty,
`startEdit` followed by an unmodified `submit` rebuilds a payload whose
editable fields equal the stored values: the `|| ''` sentinel of
`startEdit` is exactly inverted by the `|| null` normalization of
`handleSubmit`, for both resource types. -/
theorem C10_edit_roundtrip
    (t : TurmasManager.Turma) (a : AtividadesManager.Atividade)
    (uid : String)
    (htd : t.description ≠ some "") (htg : t.grade_level ≠ some "")
    (hts : t.subject ≠ some "")
    (had : a.description ≠ some "") (hadd : a.due_date ≠ some "") :
    TurmasManager.turmaData (TurmasManager.startEditForm t) uid
      = { name := t.name, description := t.description,
          grade_level := t.grade_level, subject := t.subject,
          teacher_id := uid } ∧
    AtividadesManager.atividadeData (AtividadesManager.startEditForm a) uid
      = { title := a.title, description := a.description,
          due_date := a.due_date, status := a.status,
          turma_id := a.turma_id, teacher_id := uid } := by
  constructor <;>
    simp [TurmasManager.turmaData, TurmasManager.startEditForm,
          AtividadesManager.atividadeData, AtividadesManager.startEditForm,
          orNull_getD, htd, htg, hts, had, hadd]

/-- Witness for C10 at a concrete turma and atividade mixing NULL and
non-empty optional fields. -/
theorem C10_edit_roundtrip_witness :
    TurmasManager.turmaData
        (TurmasManager.startEditForm TurmasManager.sampleTurma) "u1"
      = { name := TurmasManager.sampleTurma.name,
          description := TurmasManager.sampleTurma.description,
          grade_level := TurmasManager.sampleTurma.grade_level,
          subject := TurmasManager.sampleTurma.subject,
          teacher_id := "u1" } ∧
    AtividadesManager.atividadeData
        (AtividadesManager.startEditForm
          { id := "a1", title := "Lista 1",
            description := some "Capítulo 3", due_date := none,
            status := some "pending", turma_id := "t1",
            created_at := 0, updated_at := 0, turmaName := "5º Ano A" })
        "u1"
      = { title := "Lista 1", description := some "Capítulo 3",
          due_date := none, status := some "pending", turma_id := "t1",
          teacher_id := "u1" } :=
  C10_edit_roundtrip TurmasManager.sampleTurma
    { id := "a1", title := "Lista 1", description := some "Capítulo 3",
      due_date := none, status := some "pending", turma_id := "t1",
      created_at := 0, updated_at := 0, turmaName := "5º Ano A" }
    "u1" (by decide) (by decide) (by decide) (by decide) (by decide)
